import Mathlib

/-!
Verification of the text-to-image-social-media service.

The repository ships a FastAPI service (src/main.py) that renders an HTML
string to a PNG screenshot through a headless browser.  The spec also
describes a greedy text-wrapping routine used by the bitmap-font variants of
the service; that routine is not present under src/, so it is modelled here
from the spec (section 4.1) and marked as such.  Strings are embedded as
lists of characters; machine integers of the Python code are embedded as
Lean integers (Python ints are unbounded).
-/

namespace TTI

/-! ## Greedy text wrapper (modelled from the spec, section 4.1) -/

/-- Modelled from the spec: the split of the input text on explicit newline
characters, as done by the Python `str.split` with a separator, which keeps
empty pieces and returns one piece even for empty input.  The wrapping
routine itself is absent from src/. -/
def splitOnNl : List Char → List (List Char)
  | [] => [[]]
  | c :: cs =>
    if c = '\n' then [] :: splitOnNl cs
    else
      match splitOnNl cs with
      | [] => [[c]]
      | l :: ls => (c :: l) :: ls

/-- Modelled from the spec: helper for whitespace splitting, accumulating the
current word in reverse.  Mirrors Python `str.split()` with no argument, which
splits on runs of whitespace and drops empty words. -/
def splitWsGo : List Char → List Char → List (List Char)
  | cur, [] => if cur = [] then [] else [cur.reverse]
  | cur, c :: cs =>
    if c.isWhitespace then
      if cur = [] then splitWsGo [] cs
      else cur.reverse :: splitWsGo [] cs
    else splitWsGo (c :: cur) cs

/-- Modelled from the spec: split a paragraph into its whitespace-separated
words; every returned word is nonempty. -/
def splitWs (cs : List Char) : List (List Char) :=
  splitWsGo [] cs

/-- Modelled from the spec: character-level fallback for a word whose width
alone exceeds the maximum.  Characters are added one at a time to the current
piece `cur`; whenever appending the next character would exceed the maximum,
the current piece is closed and a new piece starts with that character.
Returns the closed pieces together with the trailing unfinished piece. -/
def charWrapAux (m : List Char → Nat) (mw : Nat) :
    List Char → List Char → List (List Char) × List Char
  | [], cur => ([], cur)
  | c :: rest, cur =>
    if m (cur ++ [c]) ≤ mw then charWrapAux m mw rest (cur ++ [c])
    else
      (cur :: (charWrapAux m mw rest [c]).1, (charWrapAux m mw rest [c]).2)

/-- Modelled from the spec: character-level wrap of a whole word.  The first
character is always consumed unconditionally, so each step strictly consumes
at least one character. -/
def charWrap (m : List Char → Nat) (mw : Nat) : List Char → List (List Char) × List Char
  | [] => ([], [])
  | c :: rest => charWrapAux m mw rest [c]

/-- Modelled from the spec: word-level greedy accumulation.  `cur` is the
current (nonempty) candidate line.  Before appending the next word the
line-with-word is measured; if it exceeds the maximum the current line is
closed and a new one starts with that word, falling back to character-level
accumulation when the word alone exceeds the maximum, whose trailing piece
becomes the new current line. -/
def wrapWordsAux (m : List Char → Nat) (mw : Nat) :
    List (List Char) → List Char → List (List Char)
  | [], cur => [cur]
  | w :: ws, cur =>
    if m (cur ++ [' '] ++ w) ≤ mw then wrapWordsAux m mw ws (cur ++ [' '] ++ w)
    else if m w ≤ mw then cur :: wrapWordsAux m mw ws w
    else
      cur :: ((charWrap m mw w).1 ++ wrapWordsAux m mw ws (charWrap m mw w).2)

/-- Modelled from the spec: wrap one paragraph.  An empty or whitespace-only
paragraph yields exactly one empty line; otherwise the first word seeds the
current line (with character-level fallback when it alone exceeds the
maximum) and the remaining words are accumulated greedily. -/
def wrapParagraph (m : List Char → Nat) (mw : Nat) (p : List Char) : List (List Char) :=
  match splitWs p with
  | [] => [[]]
  | w :: ws =>
    if m w ≤ mw then wrapWordsAux m mw ws w
    else (charWrap m mw w).1 ++ wrapWordsAux m mw ws (charWrap m mw w).2

/-- Modelled from the spec: the greedy text wrapper.  The input is split on
explicit newlines, each paragraph is wrapped independently, and the lines are
concatenated in order. -/
def wrap_text (m : List Char → Nat) (mw : Nat) (t : List Char) : List (List Char) :=
  ((splitOnNl t).map (wrapParagraph m mw)).flatten

/-! ### Lemmas about the wrapper -/

theorem splitWsGo_mem_ne_nil (cs : List Char) :
    ∀ cur, ∀ w ∈ splitWsGo cur cs, w ≠ [] := by
  induction cs with
  | nil =>
    intro cur w hw
    simp only [splitWsGo] at hw
    split at hw
    · simp at hw
    · rename_i h
      simp only [List.mem_singleton] at hw
      subst hw
      simpa using h
  | cons c cs ih =>
    intro cur w hw
    simp only [splitWsGo] at hw
    split at hw
    · split at hw
      · exact ih [] w hw
      · rename_i h
        rcases List.mem_cons.mp hw with h1 | h1
        · subst h1; simpa using h
        · exact ih [] w h1
    · exact ih (c :: cur) w hw

theorem splitWs_mem_ne_nil (p : List Char) : ∀ w ∈ splitWs p, w ≠ [] :=
  splitWsGo_mem_ne_nil p []

theorem charWrapAux_sound (m : List Char → Nat) (mw : Nat) (cs : List Char) :
    ∀ cur, (m cur ≤ mw ∨ cur.length = 1) →
      (∀ l ∈ (charWrapAux m mw cs cur).1, m l ≤ mw ∨ l.length = 1) ∧
        (m (charWrapAux m mw cs cur).2 ≤ mw ∨ (charWrapAux m mw cs cur).2.length = 1) := by
  induction cs with
  | nil =>
    intro cur hcur
    exact ⟨by simp [charWrapAux], by simpa [charWrapAux] using hcur⟩
  | cons c rest ih =>
    intro cur hcur
    simp only [charWrapAux]
    split
    · rename_i h
      exact ih (cur ++ [c]) (Or.inl h)
    · refine ⟨?_, by simpa using (ih [c] (Or.inr rfl)).2⟩
      intro l hl
      simp only at hl
      rcases List.mem_cons.mp hl with h1 | h1
      · subst h1; exact hcur
      · exact (ih [c] (Or.inr rfl)).1 l h1

theorem charWrap_sound (m : List Char → Nat) (mw : Nat) (w : List Char) (hw : w ≠ []) :
    (∀ l ∈ (charWrap m mw w).1, m l ≤ mw ∨ l.length = 1) ∧
      (m (charWrap m mw w).2 ≤ mw ∨ (charWrap m mw w).2.length = 1) := by
  cases w with
  | nil => exact absurd rfl hw
  | cons c rest => exact charWrapAux_sound m mw rest [c] (Or.inr rfl)

theorem wrapWordsAux_sound (m : List Char → Nat) (mw : Nat) (ws : List (List Char)) :
    ∀ cur, (m cur ≤ mw ∨ cur.length = 1) → (∀ w ∈ ws, w ≠ []) →
      ∀ l ∈ wrapWordsAux m mw ws cur, m l ≤ mw ∨ l.length = 1 := by
  induction ws with
  | nil =>
    intro cur hcur _ l hl
    simp only [wrapWordsAux, List.mem_singleton] at hl
    subst hl; exact hcur
  | cons w ws ih =>
    intro cur hcur hws l hl
    have hwne : w ≠ [] := hws w (List.mem_cons_self w ws)
    have hws' : ∀ x ∈ ws, x ≠ [] := fun x hx => hws x (List.mem_cons_of_mem w hx)
    simp only [wrapWordsAux] at hl
    split at hl
    · rename_i h
      exact ih _ (Or.inl h) hws' l hl
    · split at hl
      · rename_i h
        rcases List.mem_cons.mp hl with h1 | h1
        · subst h1; exact hcur
        · exact ih _ (Or.inl h) hws' l h1
      · rcases List.mem_cons.mp hl with h1 | h1
        · subst h1; exact hcur
        · rcases List.mem_append.mp h1 with h2 | h2
          · exact (charWrap_sound m mw w hwne).1 l h2
          · exact ih _ (charWrap_sound m mw w hwne).2 hws' l h2

theorem wrapParagraph_sound (m : List Char → Nat) (mw : Nat) (p : List Char)
    (hempty : m [] ≤ mw) :
    ∀ l ∈ wrapParagraph m mw p, m l ≤ mw ∨ l.length = 1 := by
  intro l hl
  simp only [wrapParagraph] at hl
  split at hl
  · simp only [List.mem_singleton] at hl
    subst hl; exact Or.inl hempty
  · rename_i w ws hsp
    have hwords : ∀ x ∈ w :: ws, x ≠ [] := by
      rw [← hsp]; exact splitWs_mem_ne_nil p
    have hwne : w ≠ [] := hwords w (List.mem_cons_self w ws)
    have hws' : ∀ x ∈ ws, x ≠ [] := fun x hx => hwords x (List.mem_cons_of_mem w hx)
    split at hl
    · rename_i h
      exact wrapWordsAux_sound m mw ws w (Or.inl h) hws' l hl
    · rcases List.mem_append.mp hl with h2 | h2
      · exact (charWrap_sound m mw w hwne).1 l h2
      · exact wrapWordsAux_sound m mw ws _ (charWrap_sound m mw w hwne).2 hws' l h2

/-- C1: for every input text, every width-measurement function and every
maximum line width (with the empty line fitting, as it does for any genuine
width measure and positive maximum), no line produced by the greedy wrapper
has measured width exceeding the maximum, except single-character lines
emitted when even one character is wider than the maximum. -/
theorem wrap_text_width_bound (m : List Char → Nat) (mw : Nat) (t : List Char)
    (hempty : m [] ≤ mw) :
    ∀ l ∈ wrap_text m mw t, m l ≤ mw ∨ l.length = 1 := by
  intro l hl
  simp only [wrap_text, List.mem_flatten, List.mem_map] at hl
  obtain ⟨_, ⟨p, hp, rfl⟩, hl⟩ := hl
  exact wrapParagraph_sound m mw p hempty l hl

/-- Witness for C1 at a concrete measure, maximum and text. -/
theorem wrap_text_width_bound_witness :
    (fun l : List Char => l.length) [] ≤ 3 ∧
      ∀ l ∈ wrap_text (fun l : List Char => l.length) 3
          ['h', 'i', ' ', 't', 'h', 'e', 'r', 'e'],
        (fun l : List Char => l.length) l ≤ 3 ∨ l.length = 1 :=
  ⟨by decide, wrap_text_width_bound (fun l : List Char => l.length) 3 _ (by decide)⟩

theorem splitOnNl_no_nl (w : List Char) (h : ∀ c ∈ w, c ≠ '\n') :
    splitOnNl w = [w] := by
  induction w with
  | nil => rfl
  | cons c cs ih =>
    simp only [splitOnNl]
    rw [if_neg (h c (List.mem_cons_self c cs))]
    rw [ih (fun x hx => h x (List.mem_cons_of_mem c hx))]

theorem splitWsGo_no_ws : ∀ cs : List Char, (∀ c ∈ cs, c.isWhitespace = false) →
    ∀ cur, splitWsGo cur cs = if cur = [] ∧ cs = [] then [] else [cur.reverse ++ cs] := by
  intro cs
  induction cs with
  | nil =>
    intro _ cur
    by_cases hc : cur = [] <;> simp [splitWsGo, hc]
  | cons c cs ih =>
    intro h cur
    have hc : c.isWhitespace = false := h c (List.mem_cons_self c cs)
    simp only [splitWsGo, hc, Bool.false_eq_true, if_false]
    rw [ih (fun x hx => h x (List.mem_cons_of_mem c hx)) (c :: cur)]
    simp

theorem splitWs_single (w : List Char) (hne : w ≠ [])
    (hw : ∀ c ∈ w, c.isWhitespace = false) : splitWs w = [w] := by
  unfold splitWs
  rw [splitWsGo_no_ws w hw []]
  simp [hne]

theorem charWrapAux_tiny (m : List Char → Nat) (mw : Nat)
    (hbig : ∀ s : List Char, s ≠ [] → mw < m s) :
    ∀ cs cur : List Char, cur ≠ [] →
      (charWrapAux m mw cs cur).1 ++ [(charWrapAux m mw cs cur).2]
        = cur :: cs.map (fun c => [c]) := by
  intro cs
  induction cs with
  | nil => intro cur _; simp [charWrapAux]
  | cons c rest ih =>
    intro cur hcur
    have hgt : mw < m (cur ++ [c]) := hbig _ (by simp)
    simp only [charWrapAux]
    rw [if_neg (by omega)]
    simp only [List.cons_append, List.map_cons]
    rw [ih [c] (by simp)]

/-- C2: the wrapper is a total function (it is defined by structural
recursion, so it terminates on every input), and when the maximum width is
smaller than the width of any nonempty string — in particular smaller than any
single character — a word becomes exactly one line per character, each
recursive step consuming exactly one character. -/
theorem wrap_text_tiny_max (m : List Char → Nat) (mw : Nat) (w : List Char)
    (hne : w ≠ []) (hw : ∀ c ∈ w, c.isWhitespace = false)
    (hbig : ∀ s : List Char, s ≠ [] → mw < m s) :
    wrap_text m mw w = w.map (fun c => [c]) ∧
      (wrap_text m mw w).length = w.length := by
  have hnl : ∀ c ∈ w, c ≠ '\n' := by
    intro c hc hceq
    subst hceq
    exact absurd (hw _ hc) (by decide)
  have h1 : splitOnNl w = [w] := splitOnNl_no_nl w hnl
  have h2 : splitWs w = [w] := splitWs_single w hne hw
  obtain ⟨c, rest, rfl⟩ := List.exists_cons_of_ne_nil hne
  have hmain : wrap_text m mw (c :: rest) = (c :: rest).map (fun c => [c]) := by
    simp only [wrap_text, h1, List.map_cons, List.map_nil, List.flatten_cons,
      List.flatten_nil, List.append_nil]
    simp only [wrapParagraph, h2]
    rw [if_neg (by have := hbig (c :: rest) hne; omega)]
    simp only [charWrap]
    have := charWrapAux_tiny m mw hbig rest [c] (by simp)
    simp only [wrapWordsAux]
    rw [this]
  exact ⟨hmain, by rw [hmain, List.length_map]⟩

/-- Witness for C2: with every character ten units wide and a maximum of five,
the word abc wraps into one line per character. -/
theorem wrap_text_tiny_max_witness :
    wrap_text (fun l : List Char => 10 * l.length) 5 ['a', 'b', 'c']
      = [['a'], ['b'], ['c']] :=
  (wrap_text_tiny_max (fun l : List Char => 10 * l.length) 5 ['a', 'b', 'c']
    (by decide) (by decide)
    (fun s hs => by
      have h1 : 0 < s.length := List.length_pos.mpr hs
      show (5 : Nat) < 10 * s.length
      omega)).1

/-! ## HTML template (src/main.py, create_html_template) -/

/-- The part of the HTML template preceding the interpolated content.
Transcribed from the f-string in create_html_template; `\x7b` and `\x7d` are
the literal brace characters of the CSS and `\x27` the apostrophe.  The
directory `font_dir` is a parameter here because the source computes it from
the process working directory (os.path.abspath applied to the fonts folder). -/
def template_head (font_dir : String) (width height font_size padding : Int) : String :=
  "
    <!DOCTYPE html>
    <html>
    <head>
        <meta charset=\"UTF-8\">
        <style>
            @font-face \x7b
                font-family: \x27Manrope\x27;
                src: url(\x27file://" ++ font_dir ++ "/Manrope-ExtraLight.ttf\x27) format(\x27truetype\x27);
                font-weight: 200;
                font-style: normal;
            \x7d
            @font-face \x7b
                font-family: \x27Manrope\x27;
                src: url(\x27file://" ++ font_dir ++ "/Manrope-Light.ttf\x27) format(\x27truetype\x27);
                font-weight: 300;
                font-style: normal;
            \x7d
            @font-face \x7b
                font-family: \x27Manrope\x27;
                src: url(\x27file://" ++ font_dir ++ "/Manrope-Regular.ttf\x27) format(\x27truetype\x27);
                font-weight: 400;
                font-style: normal;
            \x7d
            @font-face \x7b
                font-family: \x27Manrope\x27;
                src: url(\x27file://" ++ font_dir ++ "/Manrope-Bold.ttf\x27) format(\x27truetype\x27);
                font-weight: 700;
                font-style: normal;
            \x7d

            * \x7b
                margin: 0;
                padding: 0;
                box-sizing: border-box;
            \x7d

            html, body \x7b
                width: " ++ toString width ++ "px;
                height: " ++ toString height ++ "px;
                overflow: hidden;
                background: linear-gradient(180deg, rgb(30, 30, 30) 0%, rgb(0, 0, 0) 100%);
            \x7d

            body \x7b
                color: white;
                font-family: \x27Manrope\x27, -apple-system, BlinkMacSystemFont, \x27Segoe UI\x27, \x27Helvetica Neue\x27, Arial, sans-serif;
                font-size: " ++ toString font_size ++ "px;
                font-weight: 200;
                line-height: 1.4;
                word-wrap: break-word;
                overflow-wrap: break-word;
                -webkit-font-smoothing: antialiased;
                -moz-osx-font-smoothing: grayscale;
                text-rendering: optimizeLegibility;
                font-smooth: always;
            \x7d

            .content \x7b
                padding: " ++ toString padding ++ "px;
                width: " ++ toString width ++ "px;
                height: " ++ toString height ++ "px;
                box-sizing: border-box;
                background: linear-gradient(180deg, rgb(30, 30, 30) 0%, rgb(0, 0, 0) 100%);
            \x7d

            p \x7b
                margin-bottom: 0.8em;
            \x7d

            p:last-child \x7b
                margin-bottom: 0;
            \x7d

            b, strong \x7b
                font-weight: bold;
            \x7d

            i, em \x7b
                font-style: italic;
            \x7d

            hr \x7b
                border: none;
                border-top: 1px solid rgba(255, 255, 255, 0.2);
                margin: 1.5em 0;
            \x7d
        </style>
    </head>
    <body>
        <div class=\"content\">
            "

/-- The part of the HTML template following the interpolated content. -/
def template_tail : String :=
  "
        </div>
    </body>
    </html>
    "

/-- Embedding of create_html_template from src/main.py: the f-string template
with the caller-supplied content spliced between head and tail, no escaping
applied.  `font_dir` abstracts the absolute path the source computes. -/
def create_html_template (font_dir : String) (content : String)
    (width height font_size padding : Int) : String :=
  template_head font_dir width height font_size padding ++ content ++ template_tail

/-! ## Global browser state and get_browser (src/main.py, lines 9-47)

Browser and playwright handles are module-level globals, both initially None.
get_browser runs under the module lock, so its calls serialize; a sequence of
calls is embedded as a fold over the outcomes the driver produces at each
call.  Handles are identified by numbers. -/

/-- The two module-level handles of src/main.py (browser_instance and
playwright_instance), each None until assigned. -/
structure GlobalState where
  browser_instance : Option Nat
  playwright_instance : Option Nat
deriving DecidableEq

/-- Outcome of one initialization attempt by the driver: starting playwright
may fail, launching chromium may fail after playwright started, or both may
succeed yielding the two handles. -/
inductive LaunchOutcome
  | startFail (e : String)
  | launchFail (pw : Nat) (e : String)
  | ok (pw b : Nat)
deriving DecidableEq

/-- Embedding of get_browser: under the lock, if the browser handle is still
None, start playwright and launch chromium, assigning the globals in that
order (so a failed launch leaves the playwright handle assigned but the
browser handle None, exactly as a raised exception would in the source);
return the browser handle. -/
def get_browser (o : LaunchOutcome) (s : GlobalState) : GlobalState × Except String Nat :=
  match s.browser_instance with
  | some b => (s, Except.ok b)
  | none =>
    match o with
    | LaunchOutcome.startFail e => (s, Except.error e)
    | LaunchOutcome.launchFail pw e =>
      (GlobalState.mk none (some pw), Except.error e)
    | LaunchOutcome.ok pw b =>
      (GlobalState.mk (some b) (some pw), Except.ok b)

/-- A serialized sequence of get_browser calls, one driver outcome per call,
threading the global state and collecting the result of each call. -/
def run_get_browser : List LaunchOutcome → GlobalState → GlobalState × List (Except String Nat)
  | [], s => (s, [])
  | o :: os, s =>
    ((run_get_browser os (get_browser o s).1).1,
      (get_browser o s).2 :: (run_get_browser os (get_browser o s).1).2)

/-- Number of calls in a sequence at which a browser launch completes, that
is, the browser handle goes from None to assigned. -/
def launch_count : List LaunchOutcome → GlobalState → Nat
  | [], _ => 0
  | o :: os, s =>
    (match s.browser_instance, o with
      | none, LaunchOutcome.ok _ _ => 1
      | _, _ => 0) + launch_count os (get_browser o s).1

/-! ## HTTP layer and the image endpoint (src/main.py, lines 163-257) -/

/-- A response body: raw PNG bytes on success, a JSON text on failure. -/
inductive ResponseBody
  | bytes (bs : List Nat)
  | text (s : String)
deriving DecidableEq

/-- Embedding of the starlette Response the handler builds: body, status
code, media type and extra headers. -/
structure HttpResponse where
  content : ResponseBody
  status_code : Nat
  media_type : String
  headers : List (String × String)
deriving DecidableEq

/-- Observable interactions of one request with its page: the page being
opened with a viewport and device scale factor, content being set, the
screenshot call, and the close call of the finally block. -/
inductive Event
  | pageOpened (vw vh dsf : Int)
  | contentSet (html : String)
  | screenshotTaken
  | pageCloseCalled
deriving DecidableEq

/-- Outcomes the browser driver produces for the page operations of one
request; each operation either succeeds or raises with a message. -/
structure PageOracle where
  new_page : Except String Nat
  set_content : Except String Unit
  wait_for_timeout : Except String Unit
  screenshot : Except String (List Nat)
  close : Except String Unit

/-- The 500 response of the except block: the f-string JSON body holding the
exception message (braces written \x7b and \x7d). -/
def json_error (e : String) : HttpResponse :=
  HttpResponse.mk (ResponseBody.text ("\x7b\"error\": \"" ++ e ++ "\"\x7d"))
    500 "application/json" []

/-- The success response: the screenshot bytes with PNG media type, the
default status code 200 and the cache headers of the source. -/
def png_response (bs : List Nat) : HttpResponse :=
  HttpResponse.mk (ResponseBody.bytes bs) 200 "image/png"
    [("Cache-Control", "public, max-age=3600"), ("Content-Disposition", "inline")]

/-- Models the headless-browser driver: a screenshot with full_page false
captures the page viewport at the page device scale factor, so the PNG pixel
dimensions are the viewport dimensions multiplied by that factor. -/
def screenshotDims (vw vh dsf : Int) : Int × Int := (vw * dsf, vh * dsf)

/-- Embedding of the generate_image handler (src/main.py, lines 163-251).
Inside the outer try: the render dimensions are the caller values times the
scale 2, the HTML is built from the raw text, get_browser is consulted, a
page is opened with the doubled viewport and device_scale_factor 2, content
is set, fonts are awaited, the screenshot is taken, and the page is always
closed by the finally block — an exception raised by close replaces the
pending result, as in Python.  Any exception reaching the except block
becomes a 500 JSON response.  Returns the response, the final global state
and the trace of page events. -/
def generate_image (font_dir : String) (launch : LaunchOutcome) (pg : PageOracle)
    (text : String) (width height font_size padding : Int) (s : GlobalState) :
    HttpResponse × GlobalState × List Event :=
  let scale : Int := 2
  let render_width := width * scale
  let render_height := height * scale
  let render_font_size := font_size * scale
  let render_padding := padding * scale
  let html_content :=
    create_html_template font_dir text render_width render_height
      render_font_size render_padding
  match get_browser launch s with
  | (s1, Except.error e) => (json_error e, s1, [])
  | (s1, Except.ok _b) =>
    match pg.new_page with
    | Except.error e => (json_error e, s1, [])
    | Except.ok _page =>
      let inner : Except String (List Nat) × List Event :=
        match pg.set_content with
        | Except.error e => (Except.error e, [])
        | Except.ok _ =>
          match pg.wait_for_timeout with
          | Except.error e => (Except.error e, [Event.contentSet html_content])
          | Except.ok _ =>
            match pg.screenshot with
            | Except.error e =>
              (Except.error e, [Event.contentSet html_content, Event.screenshotTaken])
            | Except.ok bs =>
              (Except.ok bs, [Event.contentSet html_content, Event.screenshotTaken])
      let evs :=
        Event.pageOpened render_width render_height 2 :: inner.2 ++ [Event.pageCloseCalled]
      match pg.close with
      | Except.error e2 => (json_error e2, s1, evs)
      | Except.ok _ =>
        match inner.1 with
        | Except.error e => (json_error e, s1, evs)
        | Except.ok bs => (png_response bs, s1, evs)

/-- The error messages the driver could raise during one request: the launch
errors and the page operation errors.  Any 500 body produced by the handler
carries one of these. -/
def oracle_errors (launch : LaunchOutcome) (pg : PageOracle) : List String :=
  (match launch with
    | LaunchOutcome.startFail e => [e]
    | LaunchOutcome.launchFail _ e => [e]
    | LaunchOutcome.ok _ _ => []) ++
  (match pg.new_page with | Except.error e => [e] | _ => []) ++
  (match pg.set_content with | Except.error e => [e] | _ => []) ++
  (match pg.wait_for_timeout with | Except.error e => [e] | _ => []) ++
  (match pg.screenshot with | Except.error e => [e] | _ => []) ++
  (match pg.close with | Except.error e => [e] | _ => [])

/-- A page oracle on which every operation succeeds. -/
def all_ok_oracle (p : Nat) (bs : List Nat) : PageOracle :=
  PageOracle.mk (Except.ok p) (Except.ok ()) (Except.ok ()) (Except.ok bs) (Except.ok ())

/-- Whether an event is a page opening. -/
def is_page_open : Event → Bool
  | Event.pageOpened _ _ _ => true
  | _ => false

/-- Whether an event is the close call of the finally block. -/
def is_page_close : Event → Bool
  | Event.pageCloseCalled => true
  | _ => false

/-- Default value of the text query parameter. -/
def default_text : String := "Hello, <b>World</b>!"

/-- Embedding of the health_check handler (src/main.py, lines 254-257): it
reads nothing from the global state and returns a fixed payload. -/
def health_check (_s : GlobalState) : List (String × String) :=
  [("status", "healthy"), ("message", "HTML to Image Generator API")]

/-! ## Routing (src/main.py, lines 163, 254, 261) -/

/-- Tags identifying the two registered handlers. -/
inductive HandlerTag
  | image
  | health
deriving DecidableEq

/-- The router paths of src/main.py: the image endpoint at the bare path and
the health check at /health. -/
def router_routes : List (String × HandlerTag) :=
  [("/", HandlerTag.image), ("/health", HandlerTag.health)]

/-- Embedding of app.include_router: each route path is prepended with the
mount path. -/
def include_router (pfx : String) (rs : List (String × HandlerTag)) :
    List (String × HandlerTag) :=
  rs.map (fun r => (pfx ++ r.1, r.2))

/-- The application routing table: the router mounted at /image-api. -/
def app_routes : List (String × HandlerTag) :=
  include_router "/image-api" router_routes

/-- Whether an event is the screenshot call. -/
def is_screenshot : Event → Bool
  | Event.screenshotTaken => true
  | _ => false

/-! ## Theorems about get_browser -/

theorem get_browser_some (o : LaunchOutcome) (s : GlobalState) (b : Nat)
    (h : s.browser_instance = some b) : get_browser o s = (s, Except.ok b) := by
  simp [get_browser, h]

theorem get_browser_error_mem (launch : LaunchOutcome) (s : GlobalState) (e : String)
    (h : (get_browser launch s).2 = Except.error e) (pg : PageOracle) :
    e ∈ oracle_errors launch pg := by
  rcases hs : s.browser_instance with _ | b
  · rcases launch with e' | ⟨pw, e'⟩ | ⟨pw, b'⟩
    · simp only [get_browser, hs] at h
      obtain rfl : e' = e := Except.error.inj h
      simp [oracle_errors]
    · simp only [get_browser, hs] at h
      obtain rfl : e' = e := Except.error.inj h
      simp [oracle_errors]
    · simp only [get_browser, hs] at h
      exact absurd h (by simp)
  · simp only [get_browser, hs] at h
    exact absurd h (by simp)

theorem run_get_browser_steady (os : List LaunchOutcome) (b : Nat) :
    ∀ s : GlobalState, s.browser_instance = some b →
      (run_get_browser os s).1 = s ∧ launch_count os s = 0 ∧
        ∀ r ∈ (run_get_browser os s).2, r = Except.ok b := by
  induction os with
  | nil => intro s h; simp [run_get_browser, launch_count]
  | cons o os ih =>
    intro s h
    have hg : get_browser o s = (s, Except.ok b) := get_browser_some o s b h
    refine ⟨?_, ?_, ?_⟩
    · simp [run_get_browser, hg, (ih s h).1]
    · simp [launch_count, hg, h, (ih s h).2.1]
    · intro r hr
      simp only [run_get_browser, hg, List.mem_cons] at hr
      rcases hr with h1 | h1
      · exact h1
      · exact (ih s h).2.2 r h1

/-- C5: over any serialized sequence of get_browser calls, the browser launch
completes at most once (the handle goes from None to assigned at most one
call), and once the handle is assigned it is never reassigned: the state is
left untouched and every call returns that same browser instance. -/
theorem get_browser_init_once (os : List LaunchOutcome) (s : GlobalState) :
    launch_count os s ≤ 1 ∧
      ∀ b, s.browser_instance = some b →
        (run_get_browser os s).1 = s ∧
          ∀ r ∈ (run_get_browser os s).2, r = Except.ok b := by
  constructor
  · induction os generalizing s with
    | nil => simp [launch_count]
    | cons o os ih =>
      rcases hs : s.browser_instance with _ | b
      · rcases o with e | ⟨pw, e⟩ | ⟨pw, b⟩
        · simpa [launch_count, get_browser, hs] using ih s
        · simpa [launch_count, get_browser, hs] using ih (GlobalState.mk none (some pw))
        · have h0 := (run_get_browser_steady os b (GlobalState.mk (some b) (some pw)) rfl).2.1
          simp [launch_count, get_browser, hs, h0]
      · have h0 := (run_get_browser_steady (o :: os) b s hs).2.1
        omega
  · intro b hb
    exact ⟨(run_get_browser_steady os b s hb).1, (run_get_browser_steady os b s hb).2.2⟩

/-- Witness for C5 on a concrete call sequence and an already assigned
handle. -/
theorem get_browser_init_once_witness :
    launch_count [LaunchOutcome.ok 1 2, LaunchOutcome.startFail "boom"]
        (GlobalState.mk (some 5) (some 6)) ≤ 1 ∧
      (run_get_browser [LaunchOutcome.ok 1 2, LaunchOutcome.startFail "boom"]
          (GlobalState.mk (some 5) (some 6))).1 = GlobalState.mk (some 5) (some 6) ∧
      ∀ r ∈ (run_get_browser [LaunchOutcome.ok 1 2, LaunchOutcome.startFail "boom"]
          (GlobalState.mk (some 5) (some 6))).2, r = Except.ok 5 :=
  ⟨(get_browser_init_once [LaunchOutcome.ok 1 2, LaunchOutcome.startFail "boom"]
      (GlobalState.mk (some 5) (some 6))).1,
    ((get_browser_init_once [LaunchOutcome.ok 1 2, LaunchOutcome.startFail "boom"]
      (GlobalState.mk (some 5) (some 6))).2 5 rfl).1,
    ((get_browser_init_once [LaunchOutcome.ok 1 2, LaunchOutcome.startFail "boom"]
      (GlobalState.mk (some 5) (some 6))).2 5 rfl).2⟩

/-! ## Theorems about the image endpoint handler -/

/-- C4: the handler is a total function into responses (no exception escapes
the boundary), its result is either the single success response or the 500
JSON response built from one of the messages the collaborators raised, the
screenshot is attempted at most once (no retry), and every 500 body is JSON
text embedding the exception message verbatim. -/
theorem generate_image_catches_errors (font_dir : String) (launch : LaunchOutcome)
    (pg : PageOracle) (text : String) (width height font_size padding : Int)
    (s : GlobalState) :
    ((∃ bs, (generate_image font_dir launch pg text width height font_size padding s).1
          = png_response bs) ∨
      (∃ e, e ∈ oracle_errors launch pg ∧
        (generate_image font_dir launch pg text width height font_size padding s).1
          = json_error e)) ∧
    List.countP is_screenshot
        (generate_image font_dir launch pg text width height font_size padding s).2.2 ≤ 1 ∧
    ∀ e', (json_error e').status_code = 500 ∧
      (json_error e').media_type = "application/json" ∧
      ∃ pre post, (json_error e').content = ResponseBody.text (pre ++ e' ++ post) := by
  have hjson : ∀ e', (json_error e').status_code = 500 ∧
      (json_error e').media_type = "application/json" ∧
      ∃ pre post, (json_error e').content = ResponseBody.text (pre ++ e' ++ post) :=
    fun e' => ⟨rfl, rfl, "\x7b\"error\": \"", "\"\x7d", rfl⟩
  rcases hgb : get_browser launch s with ⟨s1, r1⟩
  rcases r1 with e | b1
  · refine ⟨Or.inr ⟨e, get_browser_error_mem launch s e (by rw [hgb]) pg, ?_⟩, ?_, hjson⟩
    · simp [generate_image, hgb]
    · simp [generate_image, hgb]
  · rcases hnp : pg.new_page with e1 | p
    · refine ⟨Or.inr ⟨e1, by simp [oracle_errors, hnp], ?_⟩, ?_, hjson⟩
      · simp [generate_image, hgb, hnp]
      · simp [generate_image, hgb, hnp]
    · rcases hcl : pg.close with e5 | u5
      · rcases hsc : pg.set_content with e2 | u2 <;>
          rcases hwt : pg.wait_for_timeout with e3 | u3 <;>
          rcases hsh : pg.screenshot with e4 | bs <;>
          exact ⟨Or.inr ⟨e5, by simp [oracle_errors, hcl], by
              simp [generate_image, hgb, hnp, hsc, hwt, hsh, hcl]⟩, by
            simp [generate_image, hgb, hnp, hsc, hwt, hsh, hcl, List.countP_cons,
              List.countP_append, is_screenshot], hjson⟩
      · rcases hsc : pg.set_content with e2 | u2
        · refine ⟨Or.inr ⟨e2, by simp [oracle_errors, hsc], ?_⟩, ?_, hjson⟩
          · simp [generate_image, hgb, hnp, hsc, hcl]
          · simp [generate_image, hgb, hnp, hsc, hcl, List.countP_cons,
              List.countP_append, is_screenshot]
        · rcases hwt : pg.wait_for_timeout with e3 | u3
          · refine ⟨Or.inr ⟨e3, by simp [oracle_errors, hwt], ?_⟩, ?_, hjson⟩
            · simp [generate_image, hgb, hnp, hsc, hwt, hcl]
            · simp [generate_image, hgb, hnp, hsc, hwt, hcl, List.countP_cons,
                List.countP_append, is_screenshot]
          · rcases hsh : pg.screenshot with e4 | bs
            · refine ⟨Or.inr ⟨e4, by simp [oracle_errors, hsh], ?_⟩, ?_, hjson⟩
              · simp [generate_image, hgb, hnp, hsc, hwt, hsh, hcl]
              · simp [generate_image, hgb, hnp, hsc, hwt, hsh, hcl, List.countP_cons,
                  List.countP_append, is_screenshot]
            · refine ⟨Or.inl ⟨bs, ?_⟩, ?_, hjson⟩
              · simp [generate_image, hgb, hnp, hsc, hwt, hsh, hcl]
              · simp [generate_image, hgb, hnp, hsc, hwt, hsh, hcl, List.countP_cons,
                  List.countP_append, is_screenshot]

/-- Witness for C4 on a request whose screenshot call fails. -/
theorem generate_image_catches_errors_witness :
    ((∃ bs, (generate_image "/fonts" (LaunchOutcome.ok 1 2)
          (PageOracle.mk (Except.ok 4) (Except.ok ()) (Except.ok ())
            (Except.error "timeout") (Except.ok ()))
          default_text 800 1000 36 20 (GlobalState.mk none none)).1 = png_response bs) ∨
      (∃ e, e ∈ oracle_errors (LaunchOutcome.ok 1 2)
          (PageOracle.mk (Except.ok 4) (Except.ok ()) (Except.ok ())
            (Except.error "timeout") (Except.ok ())) ∧
        (generate_image "/fonts" (LaunchOutcome.ok 1 2)
          (PageOracle.mk (Except.ok 4) (Except.ok ()) (Except.ok ())
            (Except.error "timeout") (Except.ok ()))
          default_text 800 1000 36 20 (GlobalState.mk none none)).1 = json_error e)) ∧
    List.countP is_screenshot
        (generate_image "/fonts" (LaunchOutcome.ok 1 2)
          (PageOracle.mk (Except.ok 4) (Except.ok ()) (Except.ok ())
            (Except.error "timeout") (Except.ok ()))
          default_text 800 1000 36 20 (GlobalState.mk none none)).2.2 ≤ 1 ∧
    ∀ e', (json_error e').status_code = 500 ∧
      (json_error e').media_type = "application/json" ∧
      ∃ pre post, (json_error e').content = ResponseBody.text (pre ++ e' ++ post) :=
  generate_image_catches_errors "/fonts" (LaunchOutcome.ok 1 2)
    (PageOracle.mk (Except.ok 4) (Except.ok ()) (Except.ok ())
      (Except.error "timeout") (Except.ok ()))
    default_text 800 1000 36 20 (GlobalState.mk none none)

/-- C6: when the browser handle is already assigned (as the startup hook
guarantees before any request is served), a request leaves the shared global
state untouched on every path, opens at most one page of its own, and calls
close exactly as many times as it opened a page — that is, every page it
opens is closed before the handler returns, on the success path and on every
failure path after the page was created. -/
theorem generate_image_page_lifecycle (font_dir : String) (launch : LaunchOutcome)
    (pg : PageOracle) (text : String) (width height font_size padding : Int)
    (s : GlobalState) (b : Nat) (hb : s.browser_instance = some b) :
    (generate_image font_dir launch pg text width height font_size padding s).2.1 = s ∧
    List.countP is_page_open
        (generate_image font_dir launch pg text width height font_size padding s).2.2 ≤ 1 ∧
    List.countP is_page_open
        (generate_image font_dir launch pg text width height font_size padding s).2.2
      = List.countP is_page_close
        (generate_image font_dir launch pg text width height font_size padding s).2.2 := by
  have hgb := get_browser_some launch s b hb
  rcases hnp : pg.new_page with e1 | p <;>
    rcases hsc : pg.set_content with e2 | u2 <;>
    rcases hwt : pg.wait_for_timeout with e3 | u3 <;>
    rcases hsh : pg.screenshot with e4 | bs <;>
    rcases hcl : pg.close with e5 | u5 <;>
    simp [generate_image, hgb, hnp, hsc, hwt, hsh, hcl, List.countP_cons,
      List.countP_append, is_page_open, is_page_close]

/-- Witness for C6 on a concrete request whose set_content call fails. -/
theorem generate_image_page_lifecycle_witness :
    (generate_image "/fonts" (LaunchOutcome.startFail "unused")
        (PageOracle.mk (Except.ok 4) (Except.error "navigation failed") (Except.ok ())
          (Except.ok [1, 2]) (Except.ok ()))
        default_text 800 1000 36 20 (GlobalState.mk (some 3) (some 9))).2.1
      = GlobalState.mk (some 3) (some 9) ∧
    List.countP is_page_open
        (generate_image "/fonts" (LaunchOutcome.startFail "unused")
          (PageOracle.mk (Except.ok 4) (Except.error "navigation failed") (Except.ok ())
            (Except.ok [1, 2]) (Except.ok ()))
          default_text 800 1000 36 20 (GlobalState.mk (some 3) (some 9))).2.2 ≤ 1 ∧
    List.countP is_page_open
        (generate_image "/fonts" (LaunchOutcome.startFail "unused")
          (PageOracle.mk (Except.ok 4) (Except.error "navigation failed") (Except.ok ())
            (Except.ok [1, 2]) (Except.ok ()))
          default_text 800 1000 36 20 (GlobalState.mk (some 3) (some 9))).2.2
      = List.countP is_page_close
        (generate_image "/fonts" (LaunchOutcome.startFail "unused")
          (PageOracle.mk (Except.ok 4) (Except.error "navigation failed") (Except.ok ())
            (Except.ok [1, 2]) (Except.ok ()))
          default_text 800 1000 36 20 (GlobalState.mk (some 3) (some 9))).2.2 :=
  generate_image_page_lifecycle "/fonts" (LaunchOutcome.startFail "unused")
    (PageOracle.mk (Except.ok 4) (Except.error "navigation failed") (Except.ok ())
      (Except.ok [1, 2]) (Except.ok ()))
    default_text 800 1000 36 20 (GlobalState.mk (some 3) (some 9)) 3 rfl

/-- C7: with every collaborator succeeding and the parameters at their
declared defaults, the handler returns the 200 response: PNG media type, the
(nonempty) screenshot bytes as body, and the cache-control header. -/
theorem generate_image_default_success (font_dir : String) (launch : LaunchOutcome)
    (s : GlobalState) (b p : Nat) (bs : List Nat)
    (hb : s.browser_instance = some b) (hbs : bs ≠ []) :
    (generate_image font_dir launch (all_ok_oracle p bs)
        default_text 800 1000 36 20 s).1 = png_response bs ∧
    (generate_image font_dir launch (all_ok_oracle p bs)
        default_text 800 1000 36 20 s).1.status_code = 200 ∧
    (generate_image font_dir launch (all_ok_oracle p bs)
        default_text 800 1000 36 20 s).1.media_type = "image/png" ∧
    (generate_image font_dir launch (all_ok_oracle p bs)
        default_text 800 1000 36 20 s).1.content = ResponseBody.bytes bs ∧
    bs ≠ [] ∧
    ("Cache-Control", "public, max-age=3600")
      ∈ (generate_image font_dir launch (all_ok_oracle p bs)
          default_text 800 1000 36 20 s).1.headers := by
  have hgb := get_browser_some launch s b hb
  refine ⟨?_, ?_, ?_, ?_, hbs, ?_⟩ <;>
    simp [generate_image, hgb, all_ok_oracle, png_response]

/-- Witness for C7 at concrete handles and screenshot bytes. -/
theorem generate_image_default_success_witness :
    (generate_image "/fonts" (LaunchOutcome.ok 1 2) (all_ok_oracle 4 [137, 80, 78, 71])
        default_text 800 1000 36 20 (GlobalState.mk (some 2) (some 1))).1
      = png_response [137, 80, 78, 71] ∧
    (generate_image "/fonts" (LaunchOutcome.ok 1 2) (all_ok_oracle 4 [137, 80, 78, 71])
        default_text 800 1000 36 20 (GlobalState.mk (some 2) (some 1))).1.status_code = 200 ∧
    (generate_image "/fonts" (LaunchOutcome.ok 1 2) (all_ok_oracle 4 [137, 80, 78, 71])
        default_text 800 1000 36 20 (GlobalState.mk (some 2) (some 1))).1.media_type
      = "image/png" ∧
    (generate_image "/fonts" (LaunchOutcome.ok 1 2) (all_ok_oracle 4 [137, 80, 78, 71])
        default_text 800 1000 36 20 (GlobalState.mk (some 2) (some 1))).1.content
      = ResponseBody.bytes [137, 80, 78, 71] ∧
    [137, 80, 78, 71] ≠ ([] : List Nat) ∧
    ("Cache-Control", "public, max-age=3600")
      ∈ (generate_image "/fonts" (LaunchOutcome.ok 1 2) (all_ok_oracle 4 [137, 80, 78, 71])
          default_text 800 1000 36 20 (GlobalState.mk (some 2) (some 1))).1.headers :=
  generate_image_default_success "/fonts" (LaunchOutcome.ok 1 2)
    (GlobalState.mk (some 2) (some 1)) 2 4 [137, 80, 78, 71] rfl (by simp)

/-- C3 counterexample: at the default parameters (target 800 by 1000) with
every collaborator succeeding, the handler opens its page with the doubled
viewport 1600 by 2000 at device scale factor 2 and returns the screenshot
bytes unmodified, and the modelled PNG pixel dimensions — viewport times
device scale factor — are (3200, 4000), not the caller-supplied (800, 1000):
no downsampling step exists. -/
theorem generate_image_dims_cex :
    Event.pageOpened 1600 2000 2
        ∈ (generate_image "/fonts" (LaunchOutcome.ok 1 2) (all_ok_oracle 4 [9])
            default_text 800 1000 36 20 (GlobalState.mk (some 7) (some 8))).2.2 ∧
    (generate_image "/fonts" (LaunchOutcome.ok 1 2) (all_ok_oracle 4 [9])
        default_text 800 1000 36 20 (GlobalState.mk (some 7) (some 8))).1.content
      = ResponseBody.bytes [9] ∧
    screenshotDims 1600 2000 2 ≠ ((800 : Int), (1000 : Int)) := by
  refine ⟨?_, ?_, ?_⟩
  · simp [generate_image, get_browser, all_ok_oracle]
  · simp [generate_image, get_browser, all_ok_oracle, png_response]
  · decide

/-- C3 as amended: the image is rendered at 2x scale — width, height, font
size and padding are all doubled, the page viewport is the doubled size at
device scale factor 2 — but the screenshot bytes are returned as-is with no
downsampling, so the modelled PNG pixel dimensions are four times the
caller-supplied target in each axis, not equal to it. -/
theorem generate_image_renders_2x (font_dir : String) (launch : LaunchOutcome)
    (text : String) (width height font_size padding : Int) (s : GlobalState)
    (b p : Nat) (bs : List Nat) (hb : s.browser_instance = some b) :
    Event.pageOpened (width * 2) (height * 2) 2
        ∈ (generate_image font_dir launch (all_ok_oracle p bs)
            text width height font_size padding s).2.2 ∧
    Event.contentSet (create_html_template font_dir text (width * 2) (height * 2)
          (font_size * 2) (padding * 2))
        ∈ (generate_image font_dir launch (all_ok_oracle p bs)
            text width height font_size padding s).2.2 ∧
    (generate_image font_dir launch (all_ok_oracle p bs)
        text width height font_size padding s).1.content = ResponseBody.bytes bs ∧
    screenshotDims (width * 2) (height * 2) 2 = (width * 4, height * 4) := by
  have hgb := get_browser_some launch s b hb
  refine ⟨?_, ?_, ?_, ?_⟩
  · simp [generate_image, hgb, all_ok_oracle]
  · simp [generate_image, hgb, all_ok_oracle]
  · simp [generate_image, hgb, all_ok_oracle, png_response]
  · simp only [screenshotDims, Prod.mk.injEq]
    constructor <;> ring

/-- Witness for the amended C3 at concrete parameters. -/
theorem generate_image_renders_2x_witness :
    Event.pageOpened 240 360 2
        ∈ (generate_image "/fonts" (LaunchOutcome.ok 1 2) (all_ok_oracle 4 [9])
            "hi" 120 180 30 10 (GlobalState.mk (some 7) (some 8))).2.2 ∧
    Event.contentSet (create_html_template "/fonts" "hi" 240 360 60 20)
        ∈ (generate_image "/fonts" (LaunchOutcome.ok 1 2) (all_ok_oracle 4 [9])
            "hi" 120 180 30 10 (GlobalState.mk (some 7) (some 8))).2.2 ∧
    (generate_image "/fonts" (LaunchOutcome.ok 1 2) (all_ok_oracle 4 [9])
        "hi" 120 180 30 10 (GlobalState.mk (some 7) (some 8))).1.content
      = ResponseBody.bytes [9] ∧
    screenshotDims 240 360 2 = ((480 : Int), (720 : Int)) :=
  generate_image_renders_2x "/fonts" (LaunchOutcome.ok 1 2) "hi" 120 180 30 10
    (GlobalState.mk (some 7) (some 8)) 7 4 [9] rfl

/-- C8: the health endpoint returns the same fixed payload whatever the
program state is, with no failure mode (it is a total constant function of
the state). -/
theorem health_check_const (s s' : GlobalState) :
    health_check s = [("status", "healthy"), ("message", "HTML to Image Generator API")] ∧
      health_check s = health_check s' :=
  ⟨rfl, rfl⟩

/-- C9: the HTML document built by create_html_template contains the content
argument verbatim as a substring — the result is literally the template head,
then the content with no escaping or sanitization applied, then the template
tail — so markup in the caller-supplied text reaches the browser renderer
unmodified. -/
theorem create_html_template_verbatim (font_dir content : String)
    (width height font_size padding : Int) :
    ∃ pre post : String,
      create_html_template font_dir content width height font_size padding
        = pre ++ content ++ post ∧
      pre = template_head font_dir width height font_size padding ∧
      post = template_tail :=
  ⟨template_head font_dir width height font_size padding, template_tail, rfl, rfl, rfl⟩

/-- C10: the application routing table mounts both handlers under the
/image-api mount path — the image endpoint at /image-api/ and the health
check at /image-api/health — and no handler is registered at the bare paths
/ or /health. -/
theorem routes_mounted :
    app_routes = [("/image-api/", HandlerTag.image), ("/image-api/health", HandlerTag.health)] ∧
      ∀ hd : HandlerTag, ("/", hd) ∉ app_routes ∧ ("/health", hd) ∉ app_routes := by
  refine ⟨rfl, ?_⟩
  intro hd
  cases hd <;> exact ⟨by decide, by decide⟩

end TTI
